import Mathlib

/-!
# Verification of the ReliFi earnings-estimation core

Shallow embedding of the demand-aggregation and earnings-estimation engine
(`scrapper/ticketmaster_events_scraper.py`, `scrapper/improved_data_scraper.py`,
`scrapper/live_data_scraper.py`, `scrapper/config.py`, `scrapper/api_server.py`).

Modelling conventions:
* All Python floats are modelled as exact rationals `ℚ` (the constants involved
  are short decimals, and the properties verified are order/equality facts that
  are insensitive to the ℚ-vs-IEEE distinction at the scale of these formulas).
* Python `datetime` values are modelled as rational numbers of hours on a
  linear time axis; `timedelta(hours = k)` is addition by `k`.
* Network calls and exceptions are modelled by `Option` "outcome" parameters:
  `none` means the call raised, timed out, or returned a non-2xx status.
* `round(x, 2)` is modelled as `round2` below (rounding half away from ties is
  idealised as Mathlib `round`, i.e. half-up, rather than IEEE banker rounding).
-/

/-- Python `round(x, 2)`, idealised over `ℚ`. -/
def round2 (x : ℚ) : ℚ := (round (x * 100) : ℚ) / 100

theorem round_mono_rat {x y : ℚ} (h : x ≤ y) : round x ≤ round y := by
  rw [round_eq, round_eq]
  exact Int.floor_mono (by linarith)

theorem round2_mono {x y : ℚ} (h : x ≤ y) : round2 x ≤ round2 y := by
  unfold round2
  have h100 : x * 100 ≤ y * 100 := by nlinarith
  have := round_mono_rat h100
  have hc : ((round (x * 100) : ℤ) : ℚ) ≤ ((round (y * 100) : ℤ) : ℚ) := by
    exact_mod_cast this
  linarith

theorem round2_int_div (n : ℤ) : round2 ((n : ℚ) / 100) = (n : ℚ) / 100 := by
  unfold round2
  have : ((n : ℚ) / 100) * 100 = ((n : ℤ) : ℚ) := by
    field_simp
  rw [this, round_intCast]

/-- Clamping a value `x` into `[lo, hi]` (with `lo ≤ hi`) stays in `[lo, hi]`,
and `round2` preserves two-decimal bounds. -/
theorem round2_bounds {lo hi x : ℚ} (hlo : round2 lo = lo) (hhi : round2 hi = hi)
    (h1 : lo ≤ x) (h2 : x ≤ hi) : lo ≤ round2 x ∧ round2 x ≤ hi := by
  constructor
  · calc lo = round2 lo := hlo.symm
      _ ≤ round2 x := round2_mono h1
  · calc round2 x ≤ round2 hi := round2_mono h2
      _ = hi := hhi

/-!
## Event boost (`ticketmaster_events_scraper.py`, `get_event_boost`, lines 509-617)

An event as consumed by the boost loop: a start time, an optional end time
(when the parser could not produce one the loop substitutes `start + 2` hours),
and a venue capacity (the parser defaults it to 1000 when absent, so it is
always present here).
-/

structure TMEvent where
  start_time : ℚ
  end_time : Option ℚ
  capacity : ℕ
deriving DecidableEq

/-- Capacity-tier attendance multiplier (`get_event_boost`, lines 534-540). -/
def attendanceMultiplier (capacity : ℕ) : ℚ :=
  if capacity < 500 then 0.05
  else if capacity < 5000 then 0.2
  else 0.5

/-- Capacity-tier arrival/departure surge-window width in hours
(`get_event_boost`, lines 573-581; the arrival and departure widths are
assigned the same value in every branch). -/
def surgeWindow (capacity : ℕ) : ℚ :=
  if capacity < 500 then 1
  else if capacity < 5000 then 2
  else 3

/-- The end time actually used by the loop: the parsed end time, or
`start + 2` hours when none is available (lines 549-565; the string-reparse
failure branch also lands on `start + 2`). -/
def effectiveEnd (e : TMEvent) : ℚ := e.end_time.getD (e.start_time + 2)

/-- Interval-overlap test used by the source
(`hour_start < window_end and hour_end > window_start`, lines 600-613). -/
def overlapsWindow (hourStart hourEnd winStart winEnd : ℚ) : Prop :=
  hourStart < winEnd ∧ hourEnd > winStart

instance (a b c d : ℚ) : Decidable (overlapsWindow a b c d) := by
  unfold overlapsWindow; infer_instance

/-- Per-event boost contribution for the hour starting at `t`:
the sequential `if ... continue` chain of lines 600-614. -/
def eventContribution (e : TMEvent) (t : ℚ) : ℚ :=
  if t < e.start_time ∧ t + 1 > e.start_time - surgeWindow e.capacity then
    attendanceMultiplier e.capacity
  else if t < effectiveEnd e ∧ t + 1 > e.start_time then
    attendanceMultiplier e.capacity
  else if t < effectiveEnd e + surgeWindow e.capacity ∧ t + 1 > effectiveEnd e then
    attendanceMultiplier e.capacity
  else 0

/-- Core of `get_event_boost`: sum the per-event contributions over the event
list, then cap the total at 1.5 (lines 510, 519-617). `t` is the hour-start
instant (`target_datetime`). -/
def getEventBoost (events : List TMEvent) (t : ℚ) : ℚ :=
  min (events.foldl (fun acc e => acc + eventContribution e t) 0) 1.5

theorem attendanceMultiplier_nonneg (c : ℕ) : 0 ≤ attendanceMultiplier c := by
  unfold attendanceMultiplier; split_ifs <;> norm_num

theorem eventContribution_nonneg (e : TMEvent) (t : ℚ) :
    0 ≤ eventContribution e t := by
  have hm := attendanceMultiplier_nonneg e.capacity
  unfold eventContribution
  split_ifs <;> simp [hm]

theorem eventContribution_le (e : TMEvent) (t : ℚ) :
    eventContribution e t ≤ attendanceMultiplier e.capacity := by
  have hm := attendanceMultiplier_nonneg e.capacity
  unfold eventContribution
  split_ifs <;> simp [hm]

theorem foldl_add_contribution (t : ℚ) (events : List TMEvent) (acc : ℚ) :
    events.foldl (fun acc e => acc + eventContribution e t) acc
      = acc + (events.map (fun e => eventContribution e t)).sum := by
  induction events generalizing acc with
  | nil => simp
  | cons e es ih => simp [List.foldl_cons, ih]; ring

theorem boostSum_nonneg (events : List TMEvent) (t : ℚ) :
    0 ≤ (events.map (fun e => eventContribution e t)).sum := by
  induction events with
  | nil => simp
  | cons e es ih =>
      simp only [List.map_cons, List.sum_cons]
      have := eventContribution_nonneg e t
      linarith

theorem surgeWindow_ge_one (c : ℕ) : 1 ≤ surgeWindow c := by
  unfold surgeWindow; split_ifs <;> norm_num

/-- C6: the attendance multiplier (0.05 / 0.2 / 0.5) and the surge-window
width (1 / 2 / 3) assigned by `get_event_boost` are both monotonically
non-decreasing in venue capacity. -/
theorem claim6_capacity_tiers_monotone (c1 c2 : ℕ) (h : c1 ≤ c2) :
    attendanceMultiplier c1 ≤ attendanceMultiplier c2 ∧
    surgeWindow c1 ≤ surgeWindow c2 := by
  constructor <;>
    · simp only [attendanceMultiplier, surgeWindow]
      split_ifs <;> first | omega | norm_num

theorem claim6_witness :
    400 ≤ 6000 ∧
    (attendanceMultiplier 400 ≤ attendanceMultiplier 6000 ∧
     surgeWindow 400 ≤ surgeWindow 6000) :=
  ⟨by decide, claim6_capacity_tiers_monotone 400 6000 (by decide)⟩

/-- C5: `get_event_boost` tests the hour interval `[t, t+1)` against three
half-open windows — arrival `[start − w, start)`, event `[start, end)`,
departure `[end, end + w)` — with the interval-overlap test
`hour_start < window_end ∧ hour_end > window_start`; a single event adds its
attendance multiplier at most once per hour (the contribution equals the
multiplier exactly when one of the three windows overlaps, else 0), and the
pre-cap total is the sum of the per-event contributions. -/
theorem claim5_three_window_overlap_semantics :
    (∀ (e : TMEvent) (t : ℚ),
        eventContribution e t =
          if overlapsWindow t (t + 1) (e.start_time - surgeWindow e.capacity) e.start_time
              ∨ overlapsWindow t (t + 1) e.start_time (effectiveEnd e)
              ∨ overlapsWindow t (t + 1) (effectiveEnd e)
                  (effectiveEnd e + surgeWindow e.capacity)
          then attendanceMultiplier e.capacity else 0)
    ∧ (∀ (e : TMEvent) (t : ℚ), eventContribution e t ≤ attendanceMultiplier e.capacity)
    ∧ (∀ (events : List TMEvent) (t : ℚ),
        getEventBoost events t
          = min ((events.map (fun e => eventContribution e t)).sum) 1.5) := by
  refine ⟨fun e t => ?_, eventContribution_le, fun events t => ?_⟩
  · unfold eventContribution overlapsWindow
    split_ifs <;> tauto
  · unfold getEventBoost
    rw [foldl_add_contribution]
    simp

/-- C1 counterexample: for the malformed event with `start_time = 10`,
`end_time = 0` and capacity 100, the hour interval `[9, 10)` lies strictly
outside the combined window `[start − width, end + width] = [9, 1]`
(which is empty), yet the boost is 0.05, not 0: the arrival window
`[9, 10)` still overlaps the hour. -/
theorem claim1_counterexample :
    ¬ overlapsWindow 9 (9 + 1)
        ((10 : ℚ) - surgeWindow 100) ((0 : ℚ) + surgeWindow 100)
    ∧ getEventBoost [⟨10, some 0, 100⟩] 9 = 0.05
    ∧ (0.05 : ℚ) ≠ 0 := by
  refine ⟨?_, ?_, by norm_num⟩
  · unfold overlapsWindow surgeWindow
    norm_num
  · unfold getEventBoost eventContribution effectiveEnd surgeWindow attendanceMultiplier
    norm_num

/-- C1 (amended): for every list of events and every hour-start `t`,
`get_event_boost` returns a value in `[0, 1.5]`; and — provided every event
is well-formed in the sense that its (effective) end time is not before its
start time — if `[t, t+1)` lies strictly outside every event's combined
window `[start − width, end + width]`, the returned boost is exactly 0. -/
theorem claim1_event_boost_range_and_outside_zero (events : List TMEvent) (t : ℚ) :
    0 ≤ getEventBoost events t ∧ getEventBoost events t ≤ 1.5 ∧
    ((∀ e ∈ events, e.start_time ≤ effectiveEnd e) →
     (∀ e ∈ events, ¬ overlapsWindow t (t + 1)
         (e.start_time - surgeWindow e.capacity)
         (effectiveEnd e + surgeWindow e.capacity)) →
     getEventBoost events t = 0) := by
  refine ⟨?_, ?_, fun hwf houtside => ?_⟩
  · unfold getEventBoost
    rw [foldl_add_contribution]
    exact le_min (by simpa using boostSum_nonneg events t) (by norm_num)
  · exact min_le_right _ _
  · unfold getEventBoost
    rw [foldl_add_contribution]
    have hz : (events.map (fun e => eventContribution e t)).sum = 0 := by
      apply List.sum_eq_zero
      intro x hx
      rcases List.mem_map.mp hx with ⟨e, he, rfl⟩
      have hew := hwf e he
      have hout := houtside e he
      have hw := surgeWindow_ge_one e.capacity
      unfold overlapsWindow at hout
      push_neg at hout
      unfold eventContribution
      split_ifs with h1 h2 h3
      · exfalso
        obtain ⟨ha1, ha2⟩ := h1
        by_cases hc : t < effectiveEnd e + surgeWindow e.capacity
        · linarith [hout hc]
        · linarith
      · exfalso
        obtain ⟨hb1, hb2⟩ := h2
        by_cases hc : t < effectiveEnd e + surgeWindow e.capacity
        · linarith [hout hc]
        · linarith
      · exfalso
        obtain ⟨hd1, hd2⟩ := h3
        have := hout hd1
        linarith
      · rfl
    rw [hz]
    norm_num

theorem claim1_witness :
    0 ≤ getEventBoost [⟨5, some 7, 100⟩] 0 ∧
    getEventBoost [⟨5, some 7, 100⟩] 0 ≤ 1.5 ∧
    getEventBoost [⟨5, some 7, 100⟩] 0 = 0 :=
  ⟨(claim1_event_boost_range_and_outside_zero [⟨5, some 7, 100⟩] 0).1,
   (claim1_event_boost_range_and_outside_zero [⟨5, some 7, 100⟩] 0).2.1,
   (claim1_event_boost_range_and_outside_zero [⟨5, some 7, 100⟩] 0).2.2
     (by norm_num [effectiveEnd])
     (by norm_num [effectiveEnd, surgeWindow, overlapsWindow])⟩

/-!
## Demand multipliers and earnings models
(`improved_data_scraper.py`, `ImprovedEarningsScraper`, with the numeric
configuration from `config.py`)

Upstream readings (weather multiplier, event multiplier, event boost, raw
traffic factor, gas price) and the location table row are passed in as
parameters: in the source they are produced by `LiveDataScraper` /
`get_location_data` before the arithmetic modelled here runs.
-/

/-- Python `round(x, 1)`, idealised over `ℚ`. -/
def round1 (x : ℚ) : ℚ := (round (x * 10) : ℚ) / 10

/-- Python `round(x, 3)`, idealised over `ℚ`. -/
def round3 (x : ℚ) : ℚ := (round (x * 1000) : ℚ) / 1000

/-- Table lookup `DEMAND_TIME_FACTORS.get(hour, 0.5)` (`config.py`, lines 34-39). -/
def DEMAND_TIME_FACTORS : ℕ → ℚ
| 0 => 0.35 | 1 => 0.30 | 2 => 0.25 | 3 => 0.25 | 4 => 0.30 | 5 => 0.45
| 6 => 0.65 | 7 => 0.90 | 8 => 1.10 | 9 => 0.85 | 10 => 0.75 | 11 => 0.85
| 12 => 0.95 | 13 => 0.85 | 14 => 0.70 | 15 => 0.85 | 16 => 1.15 | 17 => 1.35
| 18 => 1.50 | 19 => 1.25 | 20 => 1.00 | 21 => 0.85 | 22 => 0.70 | 23 => 0.50
| _ => 0.5

/-- Table lookup `DELIVERY_DEMAND_TIME_FACTORS.get(hour, 0.5)` (`config.py`, lines 113-119). -/
def DELIVERY_DEMAND_TIME_FACTORS : ℕ → ℚ
| 0 => 0.10 | 1 => 0.05 | 2 => 0.05 | 3 => 0.05 | 4 => 0.05 | 5 => 0.10
| 6 => 0.20 | 7 => 0.40 | 8 => 0.50 | 9 => 0.40 | 10 => 0.60 | 11 => 0.90
| 12 => 1.50 | 13 => 1.30 | 14 => 0.80 | 15 => 0.50 | 16 => 0.60 | 17 => 1.00
| 18 => 1.50 | 19 => 1.40 | 20 => 1.20 | 21 => 0.80 | 22 => 0.40 | 23 => 0.20
| _ => 0.5

/-- The outcome of `datetime.strptime(target_date, "%Y-%m-%d")` as consumed by
`get_demand_multipliers`: `weekday()` (0 = Monday .. 6 = Sunday) and `month`. -/
structure DateParse where
  weekday : ℕ
  month : ℕ
deriving DecidableEq

/-- The `multipliers` dict of `get_demand_multipliers` (lines 205-311). -/
structure DemandMultipliers where
  base_demand : ℚ
  time_multiplier : ℚ
  weekend_multiplier : ℚ
  event_multiplier : ℚ
  event_boost : ℚ
  weather_multiplier : ℚ
  seasonal_multiplier : ℚ
  traffic_factor : ℚ
  total_demand : ℚ
deriving DecidableEq

/-- Embedding of `get_demand_multipliers` (lines 192-311).  `parsedDate = none` models the
`except` branch of the date parse (then `weekday = 0`, `is_weekend = False`,
and the seasonal month falls back to `datetime.now().month`, here `nowMonth`).
`weatherMult`, `eventMult`, `eventBoost` and `trafficMult` are the upstream
readings (`trafficMult` is `traffic_data['traffic_factor']`, a multiplicative
factor that lines 284-293 convert to the additive `traffic_factor`). -/
def getDemandMultipliers (serviceType : String) (hour : ℕ)
    (parsedDate : Option DateParse) (nowMonth : ℕ)
    (weatherMult eventMult eventBoost trafficMult : ℚ) : DemandMultipliers :=
  let weekday := match parsedDate with | some d => d.weekday | none => 0
  let isWeekend : Bool := match parsedDate with
    | some d => decide (d.weekday ≥ 5)
    | none => false
  let timeMult := if serviceType = "rideshare" then DEMAND_TIME_FACTORS hour
    else DELIVERY_DEMAND_TIME_FACTORS hour
  let weekendMult :=
    if serviceType = "rideshare" then
      (if weekday = 4 then 1.15 else if isWeekend then 1.25 else 1.0)
    else
      (if weekday = 4 then 1.25 else if isWeekend then 1.35 else 1.0)
  let month := match parsedDate with | some d => d.month | none => nowMonth
  let seasonalMult :=
    if month = 11 ∨ month = 12 then 1.2
    else if month = 6 ∨ month = 7 ∨ month = 8 then
      (if serviceType = "rideshare" then 1.1 else 0.95)
    else 1.0
  let trafficFactor :=
    if trafficMult > 1.0 then min ((trafficMult - 1.0) * 0.5) 0.3
    else if trafficMult < 1.0 then max ((trafficMult - 1.0) * 0.2) (-0.1)
    else 0.0
  let baseTotal := timeMult * weekendMult * eventMult * weatherMult * seasonalMult
  let totalDemand := if serviceType = "rideshare" then min baseTotal 1.8
    else min baseTotal 2.0
  { base_demand := 1.0, time_multiplier := timeMult,
    weekend_multiplier := weekendMult, event_multiplier := eventMult,
    event_boost := eventBoost, weather_multiplier := weatherMult,
    seasonal_multiplier := seasonalMult, traffic_factor := trafficFactor,
    total_demand := totalDemand }

/-- One row of the `major_cities` table / its defaults
(`get_location_data`, lines 73-190). -/
structure LocationData where
  base_hourly_rideshare : ℚ
  base_hourly_delivery : ℚ
  pricing_multiplier : ℚ
deriving DecidableEq

/-- All upstream inputs consumed by the earnings models for one
(location, date, hour) request. -/
structure Env where
  loc : LocationData
  hour : ℕ
  parsedDate : Option DateParse
  nowMonth : ℕ
  weatherMult : ℚ
  eventMult : ℚ
  eventBoost : ℚ
  trafficMult : ℚ
  gasPrice : ℚ
deriving DecidableEq

/-- One entry of the `predictions` list (the dict literals of lines 422-436
and 550-564). -/
structure Prediction where
  service : String
  min : ℚ
  max : ℚ
  hotspot : String
  demandScore : ℚ
  tripsPerHour : ℚ
  surgeMultiplier : ℚ
  color : String
  baseEarnings : ℚ
  costs : ℚ
  netEarnings : ℚ
  eventBoost : ℚ
  eventBoostPercentage : ℚ
deriving DecidableEq

/-- The `get_demand_multipliers` call made by both earnings models on the
readings bundled in `env` (lines 320 and 449). -/
def demandOf (serviceType : String) (env : Env) : DemandMultipliers :=
  getDemandMultipliers serviceType env.hour env.parsedDate env.nowMonth
    env.weatherMult env.eventMult env.eventBoost env.trafficMult

/-- Base surge from demand thresholds
(`estimate_rideshare_earnings`, lines 366-375). -/
def rideshareBaseSurge (totalDemand : ℚ) : ℚ :=
  if totalDemand > 1.5 then 1.15
  else if totalDemand > 1.3 then 1.1
  else if totalDemand < 0.7 then 0.95
  else 1.0

/-- Surge multiplier including the capped event-boost contribution
(lines 366-383). -/
def rideshareSurgeMultiplier (totalDemand eventBoost : ℚ) : ℚ :=
  if eventBoost > 0 then
    min (rideshareBaseSurge totalDemand + min (eventBoost * 0.3) 0.15) 1.3
  else rideshareBaseSurge totalDemand

/-- Hotspot selection (lines 407-416). -/
def rideshareHotspot (hour : ℕ) : String :=
  if hour = 7 ∨ hour = 8 ∨ hour = 17 ∨ hour = 18 then
    "Financial District / Commute Corridors"
  else if hour = 12 ∨ hour = 13 then "Downtown / Business Districts"
  else if hour = 18 ∨ hour = 19 ∨ hour = 20 then "Entertainment Districts"
  else if hour ≥ 21 ∨ hour ≤ 2 then "Nightlife Areas"
  else "Downtown Core"

/-- Embedding of `estimate_rideshare_earnings` (lines 313-436). -/
def estimateRideshareEarnings (env : Env) : Prediction :=
  let dm := demandOf "rideshare" env
  let baseHourly := env.loc.base_hourly_rideshare
  let adjusted0 := baseHourly * dm.total_demand
  let additiveFactor := 1.0 + dm.traffic_factor + dm.event_boost
  let adjusted1 := adjusted0 * additiveFactor
  let locationAdjustment := if env.loc.pricing_multiplier > 1.2 then 1.1 else 1.0
  let adjusted := adjusted1 * locationAdjustment
  let surge := rideshareSurgeMultiplier dm.total_demand dm.event_boost
  let tripsPerHour := max 1.0 (min 3.5 (2.2 * dm.time_multiplier))
  let milesPerHour := tripsPerHour * 4.2 * env.trafficMult
  let gasCostPerHour := milesPerHour / 22 * env.gasPrice
  let wearTearCost := milesPerHour * 0.35
  let totalCosts := gasCostPerHour + wearTearCost
  let grossEarnings := adjusted * surge
  let netEarnings := max (min (grossEarnings - totalCosts) 55) 8
  { service := "Uber",
    min := round2 (max 10 (netEarnings - 5)),
    max := round2 (netEarnings + 5),
    hotspot := rideshareHotspot env.hour,
    demandScore := round2 (min 1.0 (dm.total_demand / 1.5)),
    tripsPerHour := round2 tripsPerHour,
    surgeMultiplier := round2 surge,
    color := "#4285F4",
    baseEarnings := round2 grossEarnings,
    costs := round2 totalCosts,
    netEarnings := round2 netEarnings,
    eventBoost := round3 dm.event_boost,
    eventBoostPercentage := round1 (dm.event_boost * 100) }

/-- Python `str.lower()` (ASCII case only, as used here). -/
def pyLower (s : String) : String := String.mk (s.data.map Char.toLower)

/-- Python `str.capitalize()` (ASCII case only, as used here). -/
def pyCapitalize (s : String) : String :=
  match s.data with
  | [] => ""
  | c :: cs => String.mk (c.toUpper :: cs.map Char.toLower)

/-- Lookup `service_multipliers.get(service.lower(), 1.0)` (lines 493-498). -/
def serviceMultiplier (serviceLower : String) : ℚ :=
  if serviceLower = "doordash" then 1.0
  else if serviceLower = "ubereats" then 0.95
  else if serviceLower = "grubhub" then 1.05
  else 1.0

/-- Lookup `service_colors.get(service.lower(), '#FFD700')` (lines 541-545, 558). -/
def serviceColor (serviceLower : String) : String :=
  if serviceLower = "doordash" then "#FFD700"
  else if serviceLower = "ubereats" then "#06C167"
  else if serviceLower = "grubhub" then "#FF8000"
  else "#FFD700"

/-- Base peak-pay multiplier from meal hours
(`estimate_delivery_earnings`, lines 502-510). -/
def deliveryBasePeakPay (hour : ℕ) : ℚ :=
  if hour = 12 ∨ hour = 13 then 1.15
  else if hour = 18 ∨ hour = 19 ∨ hour = 20 then 1.2
  else if hour = 11 ∨ hour = 17 ∨ hour = 21 then 1.05
  else 1.0

/-- Peak-pay multiplier including the capped event-boost contribution
(lines 502-517). -/
def deliveryPeakPayMultiplier (hour : ℕ) (eventBoost : ℚ) : ℚ :=
  if eventBoost > 0 then
    min (deliveryBasePeakPay hour + min (eventBoost * 0.25) 0.12) 1.35
  else deliveryBasePeakPay hour

/-- Embedding of `estimate_delivery_earnings` (lines 438-564). -/
def estimateDeliveryEarnings (env : Env) (service : String) : Prediction :=
  let dm := demandOf "delivery" env
  let baseHourly := env.loc.base_hourly_delivery
  let adjusted0 := baseHourly * dm.total_demand
  let additiveFactor := 1.0 + dm.traffic_factor + dm.event_boost
  let adjusted1 := adjusted0 * additiveFactor
  let locationAdjustment := if env.loc.pricing_multiplier > 1.2 then 1.1 else 1.0
  let adjusted2 := adjusted1 * locationAdjustment
  let adjusted := adjusted2 * serviceMultiplier (pyLower service)
  let peakPay := deliveryPeakPayMultiplier env.hour dm.event_boost
  let deliveriesPerHour := max 1.0 (min 4.0 (2.5 * dm.time_multiplier))
  let milesPerHour := deliveriesPerHour * 2.5 * env.trafficMult
  let gasCostPerHour := milesPerHour / 25 * env.gasPrice
  let wearTearCost := milesPerHour * (0.35 * 0.7)
  let totalCosts := gasCostPerHour + wearTearCost
  let grossEarnings := adjusted * peakPay
  let netEarnings := max (min (grossEarnings - totalCosts) 45) 10
  { service := pyCapitalize service,
    min := round2 (max 12 (netEarnings - 6)),
    max := round2 (netEarnings + 6),
    hotspot := "Restaurant Districts",
    demandScore := round2 (min 1.0 (dm.total_demand / 1.5)),
    tripsPerHour := round2 deliveriesPerHour,
    surgeMultiplier := round2 peakPay,
    color := serviceColor (pyLower service),
    baseEarnings := round2 grossEarnings,
    costs := round2 totalCosts,
    netEarnings := round2 netEarnings,
    eventBoost := round3 dm.event_boost,
    eventBoostPercentage := round1 (dm.event_boost * 100) }

/-- The Lyft entry derived from the Uber entry
(`get_all_estimates`, lines 583-590). -/
def lyftFromUber (u : Prediction) : Prediction :=
  { u with
    service := "Lyft",
    min := round2 (u.min * 0.92),
    max := round2 (u.max * 0.92),
    demandScore := round2 (u.demandScore * 0.95),
    tripsPerHour := round2 (u.tripsPerHour * 0.9),
    color := "#FF00BF" }

/-- The `predictions` list built by `get_all_estimates` (lines 566-597). -/
def getAllEstimates (env : Env) : List Prediction :=
  let uber := estimateRideshareEarnings env
  [uber, lyftFromUber uber,
   estimateDeliveryEarnings env "doordash",
   estimateDeliveryEarnings env "ubereats",
   estimateDeliveryEarnings env "grubhub"]

/-- C3: for every combination of date, hour and weather/event/traffic
readings, however extreme, `total_demand` never exceeds 1.8 for
`service_type = 'rideshare'` and never exceeds 2.0 for
`service_type = 'delivery'`. -/
theorem claim3_total_demand_never_exceeds_cap (hour : ℕ) (pd : Option DateParse)
    (nm : ℕ) (w e b t : ℚ) :
    (getDemandMultipliers "rideshare" hour pd nm w e b t).total_demand ≤ 1.8 ∧
    (getDemandMultipliers "delivery" hour pd nm w e b t).total_demand ≤ 2.0 := by
  constructor <;>
    · simp only [getDemandMultipliers]
      split_ifs <;> first
        | exact min_le_right _ _
        | exact le_trans (min_le_right _ _) (by norm_num)

theorem claim3_witness :
    (getDemandMultipliers "rideshare" 18 (some ⟨5, 12⟩) 12 1.5 1.3 0.5 1.2).total_demand ≤ 1.8 ∧
    (getDemandMultipliers "delivery" 18 (some ⟨5, 12⟩) 12 1.5 1.3 0.5 1.2).total_demand ≤ 2.0 :=
  claim3_total_demand_never_exceeds_cap 18 (some ⟨5, 12⟩) 12 1.5 1.3 0.5 1.2

/-- C2: `total_demand` is `min` of the product of the five multiplicative
factors against the service cap (1.8 rideshare / 2.0 delivery); `traffic_factor`
and `event_boost` are not folded into `total_demand` (it is invariant under
changing them); both earnings models apply them later, multiplicatively on the
rate as `rate *= (1 + traffic_factor + event_boost)` before the location
adjustment and the surge / peak-pay multiplier. -/
theorem claim2_composition_rule :
    (∀ (svc : String) (hour : ℕ) (pd : Option DateParse) (nm : ℕ) (w e b t : ℚ),
      (getDemandMultipliers svc hour pd nm w e b t).total_demand
        = min ((getDemandMultipliers svc hour pd nm w e b t).time_multiplier
            * (getDemandMultipliers svc hour pd nm w e b t).weekend_multiplier
            * (getDemandMultipliers svc hour pd nm w e b t).event_multiplier
            * (getDemandMultipliers svc hour pd nm w e b t).weather_multiplier
            * (getDemandMultipliers svc hour pd nm w e b t).seasonal_multiplier)
            (if svc = "rideshare" then 1.8 else 2.0))
    ∧ (∀ (svc : String) (hour : ℕ) (pd : Option DateParse) (nm : ℕ)
        (w e b t b2 t2 : ℚ),
      (getDemandMultipliers svc hour pd nm w e b t).total_demand
        = (getDemandMultipliers svc hour pd nm w e b2 t2).total_demand)
    ∧ (∀ env : Env,
      (estimateRideshareEarnings env).baseEarnings
        = round2 (env.loc.base_hourly_rideshare
            * (demandOf "rideshare" env).total_demand
            * (1.0 + (demandOf "rideshare" env).traffic_factor
                 + (demandOf "rideshare" env).event_boost)
            * (if env.loc.pricing_multiplier > 1.2 then 1.1 else 1.0)
            * rideshareSurgeMultiplier (demandOf "rideshare" env).total_demand
                (demandOf "rideshare" env).event_boost))
    ∧ (∀ (env : Env) (service : String),
      (estimateDeliveryEarnings env service).baseEarnings
        = round2 (env.loc.base_hourly_delivery
            * (demandOf "delivery" env).total_demand
            * (1.0 + (demandOf "delivery" env).traffic_factor
                 + (demandOf "delivery" env).event_boost)
            * (if env.loc.pricing_multiplier > 1.2 then 1.1 else 1.0)
            * serviceMultiplier (pyLower service)
            * deliveryPeakPayMultiplier env.hour
                (demandOf "delivery" env).event_boost)) := by
  refine ⟨fun svc hour pd nm w e b t => ?_, fun svc hour pd nm w e b t b2 t2 => ?_,
    fun env => ?_, fun env service => ?_⟩
  · simp only [getDemandMultipliers]
    split_ifs <;> rfl
  · rfl
  · rfl
  · rfl

theorem round2_fix_8 : round2 8 = 8 := by
  have := round2_int_div 800; norm_num at this; exact_mod_cast this

theorem round2_fix_55 : round2 55 = 55 := by
  have := round2_int_div 5500; norm_num at this; exact_mod_cast this

theorem round2_fix_10 : round2 10 = 10 := by
  have := round2_int_div 1000; norm_num at this; exact_mod_cast this

theorem round2_fix_45 : round2 45 = 45 := by
  have := round2_int_div 4500; norm_num at this; exact_mod_cast this

theorem round2_clamp_bounds (lo hi x : ℚ) (hlo : round2 lo = lo)
    (hhi : round2 hi = hi) (h : lo ≤ hi) :
    lo ≤ round2 (max (min x hi) lo) ∧ round2 (max (min x hi) lo) ≤ hi :=
  round2_bounds hlo hhi (le_max_right _ _) (max_le (min_le_right _ _) h)

/-- C4: for every input, `netEarnings` from `estimate_rideshare_earnings`
lies in `[8, 55]` and `netEarnings` from `estimate_delivery_earnings` lies
in `[10, 45]`. -/
theorem claim4_net_earnings_bands (env : Env) (service : String) :
    (8 ≤ (estimateRideshareEarnings env).netEarnings ∧
     (estimateRideshareEarnings env).netEarnings ≤ 55) ∧
    (10 ≤ (estimateDeliveryEarnings env service).netEarnings ∧
     (estimateDeliveryEarnings env service).netEarnings ≤ 45) := by
  constructor
  · exact round2_clamp_bounds 8 55 _ round2_fix_8 round2_fix_55 (by norm_num)
  · exact round2_clamp_bounds 10 45 _ round2_fix_10 round2_fix_45 (by norm_num)

theorem rideshareBaseSurge_bounds (d : ℚ) :
    0.95 ≤ rideshareBaseSurge d ∧ rideshareBaseSurge d ≤ 1.15 := by
  unfold rideshareBaseSurge; split_ifs <;> norm_num

theorem rideshareSurgeMultiplier_bounds (d b : ℚ) :
    0.95 ≤ rideshareSurgeMultiplier d b ∧ rideshareSurgeMultiplier d b ≤ 1.3 := by
  obtain ⟨h1, h2⟩ := rideshareBaseSurge_bounds d
  unfold rideshareSurgeMultiplier
  split_ifs with hb
  · constructor
    · refine le_min ?_ (by norm_num)
      have hmin : (0 : ℚ) ≤ min (b * 0.3) 0.15 := le_min (by nlinarith) (by norm_num)
      linarith
    · exact min_le_right _ _
  · exact ⟨h1, by linarith⟩

theorem deliveryBasePeakPay_bounds (hour : ℕ) :
    1 ≤ deliveryBasePeakPay hour ∧ deliveryBasePeakPay hour ≤ 1.2 := by
  unfold deliveryBasePeakPay; split_ifs <;> norm_num

theorem deliveryPeakPayMultiplier_bounds (hour : ℕ) (b : ℚ) :
    1 ≤ deliveryPeakPayMultiplier hour b ∧ deliveryPeakPayMultiplier hour b ≤ 1.35 := by
  obtain ⟨h1, h2⟩ := deliveryBasePeakPay_bounds hour
  unfold deliveryPeakPayMultiplier
  split_ifs with hb
  · constructor
    · refine le_min ?_ (by norm_num)
      have hmin : (0 : ℚ) ≤ min (b * 0.25) 0.12 := le_min (by nlinarith) (by norm_num)
      linarith
    · exact min_le_right _ _
  · exact ⟨h1, by linarith⟩

theorem round2_fix_095 : round2 0.95 = 0.95 := by
  have := round2_int_div 95; norm_num at this ⊢; exact_mod_cast this

theorem round2_fix_13 : round2 1.3 = 1.3 := by
  have := round2_int_div 130; norm_num at this ⊢; exact_mod_cast this

theorem round2_fix_1 : round2 1 = 1 := by
  have := round2_int_div 100; norm_num at this; exact_mod_cast this

theorem round2_fix_135 : round2 1.35 = 1.35 := by
  have := round2_int_div 135; norm_num at this ⊢; exact_mod_cast this

theorem uber_surge_band (env : Env) :
    0.95 ≤ (estimateRideshareEarnings env).surgeMultiplier ∧
    (estimateRideshareEarnings env).surgeMultiplier ≤ 1.3 :=
  round2_bounds round2_fix_095 round2_fix_13
    (rideshareSurgeMultiplier_bounds _ _).1 (rideshareSurgeMultiplier_bounds _ _).2

theorem delivery_surge_band (env : Env) (service : String) :
    1 ≤ (estimateDeliveryEarnings env service).surgeMultiplier ∧
    (estimateDeliveryEarnings env service).surgeMultiplier ≤ 1.35 :=
  round2_bounds round2_fix_1 round2_fix_135
    (deliveryPeakPayMultiplier_bounds _ _).1 (deliveryPeakPayMultiplier_bounds _ _).2

/-- C10: in every prediction from `get_all_estimates`, the rideshare
(Uber/Lyft) `surgeMultiplier` lies in `[0.95, 1.3]` and the delivery
(peak-pay) `surgeMultiplier` lies in `[1.0, 1.35]`. -/
theorem claim10_surge_multiplier_bands (env : Env) (p : Prediction)
    (hp : p ∈ getAllEstimates env) :
    ((p.service = "Uber" ∨ p.service = "Lyft") →
      0.95 ≤ p.surgeMultiplier ∧ p.surgeMultiplier ≤ 1.3) ∧
    ((p.service = "Doordash" ∨ p.service = "Ubereats" ∨ p.service = "Grubhub") →
      1 ≤ p.surgeMultiplier ∧ p.surgeMultiplier ≤ 1.35) := by
  simp only [getAllEstimates, List.mem_cons, List.not_mem_nil, or_false] at hp
  have hlyft : (lyftFromUber (estimateRideshareEarnings env)).surgeMultiplier
      = (estimateRideshareEarnings env).surgeMultiplier := rfl
  rcases hp with rfl | rfl | rfl | rfl | rfl
  · refine ⟨fun _ => uber_surge_band env, fun hcon => ?_⟩
    have hs : (estimateRideshareEarnings env).service = "Uber" := rfl
    rw [hs] at hcon
    rcases hcon with h | h | h <;> exact absurd h (by decide)
  · refine ⟨fun _ => ?_, fun hcon => ?_⟩
    · rw [hlyft]
      exact uber_surge_band env
    · have hs : (lyftFromUber (estimateRideshareEarnings env)).service = "Lyft" := rfl
      rw [hs] at hcon
      rcases hcon with h | h | h <;> exact absurd h (by decide)
  · refine ⟨fun hcon => ?_, fun _ => delivery_surge_band env "doordash"⟩
    have hs : (estimateDeliveryEarnings env "doordash").service
        = pyCapitalize "doordash" := rfl
    rw [hs] at hcon
    rcases hcon with h | h <;> exact absurd h (by decide)
  · refine ⟨fun hcon => ?_, fun _ => delivery_surge_band env "ubereats"⟩
    have hs : (estimateDeliveryEarnings env "ubereats").service
        = pyCapitalize "ubereats" := rfl
    rw [hs] at hcon
    rcases hcon with h | h <;> exact absurd h (by decide)
  · refine ⟨fun hcon => ?_, fun _ => delivery_surge_band env "grubhub"⟩
    have hs : (estimateDeliveryEarnings env "grubhub").service
        = pyCapitalize "grubhub" := rfl
    rw [hs] at hcon
    rcases hcon with h | h <;> exact absurd h (by decide)

/-- A concrete environment used to instantiate universally quantified
theorems: San Francisco row of the city table, Saturday in November,
hour 18, rainy weather, an event multiplier, a 0.5 event boost and
moderate traffic. -/
def envW : Env :=
  ⟨⟨28, 24, 1.2⟩, 18, some ⟨5, 11⟩, 11, 1.4, 1.3, 0.5, 1.2, 5.25⟩

theorem claim10_witness :
    estimateRideshareEarnings envW ∈ getAllEstimates envW ∧
    (0.95 ≤ (estimateRideshareEarnings envW).surgeMultiplier ∧
     (estimateRideshareEarnings envW).surgeMultiplier ≤ 1.3) :=
  ⟨by simp [getAllEstimates],
   (claim10_surge_multiplier_bands envW (estimateRideshareEarnings envW)
      (by simp [getAllEstimates])).1 (Or.inl rfl)⟩

/-!
## Source clients and fallback provenance (`live_data_scraper.py`,
`ticketmaster_events_scraper.py` `get_events`)

Each client is a function of the configuration flags (is the API key set,
did geocoding produce coordinates) and an `Option` live-call outcome:
`none` models an exception, timeout, non-2xx response, or a payload from
which the client could not extract the fields it needs.
-/

def isPrefixChars : List Char → List Char → Bool
| [], _ => true
| _ :: _, [] => false
| a :: as, b :: bs => a == b && isPrefixChars as bs

def hasSubChars (needle : List Char) : List Char → Bool
| [] => isPrefixChars needle []
| c :: rest => isPrefixChars needle (c :: rest) || hasSubChars needle rest

/-- Python `needle in hay` on strings. -/
def hasSubstr (needle hay : String) : Bool := hasSubChars needle.data hay.data

/-- The fields extracted from an OpenWeatherMap response (the selected
forecast entry or the current-weather payload). -/
structure WeatherLive where
  temperature : ℚ
  condition : String
  precipitation : ℚ
  humidity : ℚ
deriving DecidableEq

/-- The `weather_data` dict of `get_weather_data` (lines 65-72). -/
structure WeatherReading where
  temperature : ℚ
  condition : String
  precipitation : ℚ
  humidity : ℚ
  multiplier : ℚ
  source : String
deriving DecidableEq

def defaultWeather : WeatherReading := ⟨65, "clear", 0, 50, 1.0, "default"⟩

/-- Demand multiplier derived from a live weather payload
(lines 168-178 and 218-228; both success branches use the same rule). -/
def weatherMultiplierFrom (condition : String) (precip temp : ℚ) : ℚ :=
  if hasSubstr "rain" condition ∨ precip > 0 then 1.4
  else if hasSubstr "snow" condition then 1.5
  else if condition = "clear" ∨ condition = "sunny" then 1.0
  else if temp < 40 ∨ temp > 85 then 1.2
  else 1.0

/-- Embedding of `get_weather_data` (lines 53-235).  `parsedMonth` is the month of the
target date when it is present and parses (no-key seasonal branch,
lines 74-86); `isForecast` selects the forecast vs current API branch;
`live = none` covers the geocoding hit with a failed call. -/
def getWeatherData (keyAvailable : Bool) (parsedMonth : Option ℕ)
    (geocodeOk : Bool) (isForecast : Bool) (live : Option WeatherLive) :
    WeatherReading :=
  if keyAvailable = false then
    match parsedMonth with
    | some m =>
        if m = 12 ∨ m = 1 ∨ m = 2 then { defaultWeather with multiplier := 1.15 }
        else if m = 6 ∨ m = 7 ∨ m = 8 then { defaultWeather with multiplier := 1.05 }
        else defaultWeather
    | none => defaultWeather
  else if geocodeOk = false then defaultWeather
  else
    match live with
    | none => defaultWeather
    | some wl =>
        { temperature := wl.temperature,
          condition := wl.condition,
          precipitation := wl.precipitation,
          humidity := wl.humidity,
          multiplier := weatherMultiplierFrom wl.condition wl.precipitation wl.temperature,
          source := if isForecast then "openweathermap_forecast"
            else "openweathermap_current" }

/-- The events payload of `TicketmasterEventsScraper.get_events`
(lines 52-57). -/
structure EventsData where
  events_found : ℕ
  demand_multiplier : ℚ
  source : String
  events : List TMEvent
deriving DecidableEq

/-- Embedding of `_get_time_based_estimate` (lines 431-462); `none` models a missing or
unparseable target date (the `except: pass` branch). -/
def timeBasedEstimate (parsedDate : Option DateParse) : EventsData :=
  match parsedDate with
  | some d =>
      if d.weekday ≥ 5 then ⟨0, 1.15, "time_estimate_weekend", []⟩
      else if d.weekday = 4 then ⟨0, 1.1, "time_estimate_friday", []⟩
      else ⟨0, 1.0, "time_estimate", []⟩
  | none => ⟨0, 1.0, "time_estimate", []⟩

/-- Embedding of `get_events` (lines 31-202).  `live = some evs` is the list of events
parsed from a successful (all-pages) API response; `none` is a request
exception or an error status; a successful response yielding no parsed
events also falls back to the time-based estimate (lines 184-187). -/
def ticketmasterGetEvents (keyAvailable geocodeOk : Bool)
    (parsedDate : Option DateParse) (live : Option (List TMEvent)) : EventsData :=
  if keyAvailable = false then timeBasedEstimate parsedDate
  else if geocodeOk = false then timeBasedEstimate parsedDate
  else
    match live with
    | none => timeBasedEstimate parsedDate
    | some [] => timeBasedEstimate parsedDate
    | some (e :: es) => ⟨(e :: es).length, 1.0, "ticketmaster", e :: es⟩

/-- The two durations extracted from a Google Maps Distance Matrix element
(`duration.value`, `duration_in_traffic.value`, lines 372-375). -/
structure TrafficLive where
  normalDuration : ℚ
  trafficDuration : ℚ
deriving DecidableEq

/-- The `traffic_data` dict of `get_traffic_data` (lines 338-343). -/
structure TrafficReading where
  congestion_level : ℚ
  avg_speed_mph : ℚ
  traffic_factor : ℚ
  source : String
deriving DecidableEq

def defaultTraffic : TrafficReading := ⟨0.5, 25, 1.0, "estimate"⟩

/-- Embedding of `get_traffic_data` (lines 327-401).  The time-based block (lines 388-398)
runs only while `source` is still `"estimate"`; the geocode-failure path
returns early (line 354) and skips it.  `nowHour` is `datetime.now().hour`. -/
def getTrafficData (keyAvailable geocodeOk : Bool) (live : Option TrafficLive)
    (nowHour : ℕ) : TrafficReading :=
  let timeBased : TrafficReading :=
    if (7 ≤ nowHour ∧ nowHour ≤ 9) ∨ (17 ≤ nowHour ∧ nowHour ≤ 19) then
      ⟨0.7, 20, 1.2, "estimate"⟩
    else if 10 ≤ nowHour ∧ nowHour ≤ 15 then ⟨0.4, 28, 1.1, "estimate"⟩
    else defaultTraffic
  if keyAvailable then
    if geocodeOk = false then defaultTraffic
    else
      match live with
      | none => timeBased
      | some tl =>
          let cr := tl.trafficDuration / tl.normalDuration - 1.0
          ⟨min 1.0 cr, max 15 (35 - cr * 20), 1.0 + cr * 0.3, "google_maps"⟩
  else timeBased

/-- The `gas_data` dict of `get_gas_prices` (lines 414-417). -/
structure GasReading where
  price_per_gallon : ℚ
  source : String
deriving DecidableEq

/-- Lookup `regional_prices.get(state)` (lines 429-432). -/
def regionalGasPrice (state : String) : Option ℚ :=
  if state = "CA" then some 5.25 else if state = "NY" then some 4.80
  else if state = "TX" then some 3.90 else if state = "FL" then some 4.20
  else if state = "IL" then some 4.50 else if state = "WA" then some 5.10
  else if state = "MA" then some 4.70 else if state = "AZ" then some 4.30
  else none

/-- Embedding of `get_gas_prices` (lines 403-442): there is no live provider at all;
the reading is the config default or a hardcoded regional average. -/
def getGasPrices (state : Option String) : GasReading :=
  match state with
  | some s =>
      match regionalGasPrice s with
      | some p => ⟨p, "regional_average"⟩
      | none => ⟨5.25, "default"⟩
  | none => ⟨5.25, "default"⟩

/-- Provenance tags that mark estimated / default readings. -/
def estimateSourceTags : List String :=
  ["default", "estimate", "time_estimate", "time_estimate_weekend",
   "time_estimate_friday", "regional_average"]

/-- Provenance tags that mark live-provider readings. -/
def liveSourceTags : List String :=
  ["openweathermap_forecast", "openweathermap_current", "ticketmaster",
   "google_maps"]

theorem weather_source_no_key (pm : Option ℕ) (geo fc : Bool)
    (live : Option WeatherLive) :
    (getWeatherData false pm geo fc live).source = "default" := by
  unfold getWeatherData
  cases pm with
  | none => rfl
  | some m => simp only [if_pos rfl]; split_ifs <;> rfl

theorem weather_source_live_fail (key : Bool) (pm : Option ℕ) (geo fc : Bool) :
    (getWeatherData key pm geo fc none).source = "default" := by
  cases key with
  | false => exact weather_source_no_key pm geo fc none
  | true =>
      unfold getWeatherData
      cases geo <;> rfl

theorem events_source_time_based (pd : Option DateParse) :
    (timeBasedEstimate pd).source ∈ estimateSourceTags := by
  unfold timeBasedEstimate
  cases pd with
  | none => decide
  | some d =>
      dsimp only
      split_ifs <;> decide

theorem traffic_source_time_based (nowHour : ℕ) :
    ((if (7 ≤ nowHour ∧ nowHour ≤ 9) ∨ (17 ≤ nowHour ∧ nowHour ≤ 19) then
        (⟨0.7, 20, 1.2, "estimate"⟩ : TrafficReading)
      else if 10 ≤ nowHour ∧ nowHour ≤ 15 then ⟨0.4, 28, 1.1, "estimate"⟩
      else defaultTraffic)).source = "estimate" := by
  split_ifs <;> rfl

/-- C7: for each domain source client, if the live provider call fails or no
API key is configured, the returned reading's `source` tag is an estimate /
default tag — never a live-provider tag — and the overall earnings estimate
still produces the full five-entry prediction set. -/
theorem claim7_fallback_provenance :
    (∀ (key : Bool) (pm : Option ℕ) (geo fc : Bool) (live : Option WeatherLive),
      key = false ∨ live = none →
        (getWeatherData key pm geo fc live).source ∈ estimateSourceTags)
    ∧ (∀ (key geo : Bool) (pd : Option DateParse) (live : Option (List TMEvent)),
      key = false ∨ live = none →
        (ticketmasterGetEvents key geo pd live).source ∈ estimateSourceTags)
    ∧ (∀ (key geo : Bool) (live : Option TrafficLive) (nowHour : ℕ),
      key = false ∨ live = none →
        (getTrafficData key geo live nowHour).source = "estimate")
    ∧ (∀ state : Option String,
        (getGasPrices state).source ∈ estimateSourceTags)
    ∧ (∀ s ∈ estimateSourceTags, s ∉ liveSourceTags)
    ∧ (∀ env : Env, (getAllEstimates env).length = 5) := by
  refine ⟨?_, ?_, ?_, ?_, by decide, fun env => rfl⟩
  · rintro key pm geo fc live (rfl | rfl)
    · rw [weather_source_no_key]; decide
    · rw [weather_source_live_fail]; decide
  · rintro key geo pd live (rfl | rfl)
    · unfold ticketmasterGetEvents
      simp only [if_pos rfl]
      exact events_source_time_based pd
    · unfold ticketmasterGetEvents
      cases key with
      | false => exact events_source_time_based pd
      | true =>
          cases geo with
          | false => exact events_source_time_based pd
          | true => exact events_source_time_based pd
  · rintro key geo live nowHour (rfl | rfl)
    · unfold getTrafficData
      simp only [Bool.false_eq_true, if_neg (by decide : ¬ (false : Bool) = true)]
      exact traffic_source_time_based nowHour
    · unfold getTrafficData
      cases key with
      | false =>
          simp only []
          exact traffic_source_time_based nowHour
      | true =>
          cases geo with
          | false => rfl
          | true => exact traffic_source_time_based nowHour
  · intro state
    unfold getGasPrices
    cases state with
    | none => decide
    | some s =>
        unfold regionalGasPrice
        dsimp only
        split_ifs <;> decide

theorem claim7_witness :
    ((false = false ∨ (none : Option WeatherLive) = none) ∧
      (getWeatherData false (some 12) true true none).source ∈ estimateSourceTags) ∧
    ((false = false ∨ (none : Option (List TMEvent)) = none) ∧
      (ticketmasterGetEvents false true (some ⟨5, 11⟩) none).source ∈ estimateSourceTags) ∧
    ((true = false ∨ (none : Option TrafficLive) = none) ∧
      (getTrafficData true true none 18).source = "estimate") ∧
    (getGasPrices (some "CA")).source ∈ estimateSourceTags ∧
    (getAllEstimates envW).length = 5 :=
  ⟨⟨Or.inl rfl, claim7_fallback_provenance.1 false (some 12) true true none (Or.inl rfl)⟩,
   ⟨Or.inl rfl, claim7_fallback_provenance.2.1 false true (some ⟨5, 11⟩) none (Or.inl rfl)⟩,
   ⟨Or.inr rfl, claim7_fallback_provenance.2.2.1 true true none 18 (Or.inr rfl)⟩,
   claim7_fallback_provenance.2.2.2.1 (some "CA"),
   claim7_fallback_provenance.2.2.2.2.2 envW⟩

/-!
## Response cache (`api_server.py`, `get_cache_key` / `get_cached_earnings` /
`cache_earnings` / `get_earnings`, improved-scraper path)

`get_cache_key` md5-hashes the normalized `f"{location}_{date}_{hour}"`
string; since the hash is a deterministic function, identical inputs give
identical keys, which is all the cache claims need — the key is therefore
modelled as the (location, date, hour) triple itself (coordinate-string
rounding and hash collisions are not modelled).  Wall-clock time
(`datetime.now().timestamp()`) is an explicit rational parameter, and the
module-level `earnings_cache` dict is threaded as an association list
(newest entry first, as a dict overwrite).  The returned `ℕ` counts how many
times the handler invoked `scraper.get_all_estimates`, i.e. the live
provider calls issued. -/

abbrev EKey := String × String × ℕ

def getCacheKey (location date : String) (hour : ℕ) : EKey := (location, date, hour)

/-- The `metadata` dict cached alongside the predictions (lines 582-586). -/
structure CacheMetadata where
  usingLiveData : Bool
  note : String
deriving DecidableEq

/-- The dict passed to `cache_earnings` (lines 581-587). -/
structure CachedVal where
  predictions : List Prediction
  metadata : CacheMetadata
deriving DecidableEq

abbrev EarningsCache := List (EKey × CachedVal × ℚ)

def CACHE_TTL_SECONDS : ℚ := 3600

/-- Dict lookup in the module-level `earnings_cache` (newest entry wins). -/
def cacheLookup : EarningsCache → EKey → Option (CachedVal × ℚ)
| [], _ => none
| (k, v, ts) :: rest, key => if k = key then some (v, ts) else cacheLookup rest key

/-- Embedding of `get_cached_earnings` (lines 147-155). -/
def getCachedEarnings (cache : EarningsCache) (now : ℚ) (location date : String)
    (hour : ℕ) : Option CachedVal :=
  match cacheLookup cache (getCacheKey location date hour) with
  | some (v, ts) => if now - ts < CACHE_TTL_SECONDS then some v else none
  | none => none

/-- Embedding of `cache_earnings` (lines 157-160). -/
def cacheEarnings (cache : EarningsCache) (now : ℚ) (location date : String)
    (hour : ℕ) (v : CachedVal) : EarningsCache :=
  (getCacheKey location date hour, v, now) :: cache

/-- The JSON object returned by `get_earnings`: the cache-hit body has keys
`predictions`/`metadata` while the cache-miss body has keys
`location`/`date`/`timeSlot`/`predictions` — absent keys are `none`. -/
structure ApiResponse where
  location : Option String
  date : Option String
  timeSlot : Option String
  predictions : List Prediction
  metadata : Option CacheMetadata
deriving DecidableEq

def improvedScraperMetadata : CacheMetadata :=
  ⟨true, "Live data from improved scraper with specific date/time"⟩

/-- Embedding of `get_earnings` (lines 554-594), improved-scraper path.  Returns the
response, the updated cache, and the number of `scraper.get_all_estimates`
invocations (the live computation) this request made. -/
def getEarnings (env : Env) (now : ℚ) (location date startTime endTime : String)
    (hour : ℕ) (cache : EarningsCache) : ApiResponse × EarningsCache × ℕ :=
  match getCachedEarnings cache now location date hour with
  | some cv => (⟨none, none, none, cv.predictions, some cv.metadata⟩, cache, 0)
  | none =>
      let predictions := getAllEstimates env
      let cache2 :=
        if predictions = [] then cache
        else cacheEarnings cache now location date hour ⟨predictions, improvedScraperMetadata⟩
      (⟨some location, some date, some (startTime ++ " - " ++ endTime),
        predictions, none⟩, cache2, 1)

theorem getAllEstimates_ne_nil (env : Env) : getAllEstimates env ≠ [] := by
  simp [getAllEstimates]

/-- C8 counterexample: with an empty cache, calling the endpoint at `t = 0`
and again at `t = 1` (well within the 3600-second TTL) with the identical
(location, date, hour) key returns responses that are not byte-identical:
the first body has keys `location`/`date`/`timeSlot`/`predictions`, the
cached body served on the second call has keys `predictions`/`metadata`. -/
theorem claim8_counterexample :
    (1 : ℚ) - 0 < CACHE_TTL_SECONDS ∧
    (getEarnings envW 1 "San Francisco" "2025-11-08" "6:00 PM" "7:00 PM" 18
        (getEarnings envW 0 "San Francisco" "2025-11-08" "6:00 PM" "7:00 PM" 18 []).2.1).1
      ≠ (getEarnings envW 0 "San Francisco" "2025-11-08" "6:00 PM" "7:00 PM" 18 []).1 := by
  have httl : (1 : ℚ) - 0 < CACHE_TTL_SECONDS := by norm_num [CACHE_TTL_SECONDS]
  refine ⟨httl, ?_⟩
  have hmiss : getCachedEarnings [] 0 "San Francisco" "2025-11-08" 18 = none := rfl
  have hfirst : (getEarnings envW 0 "San Francisco" "2025-11-08" "6:00 PM" "7:00 PM" 18 []).1.metadata
      = none := by
    unfold getEarnings
    rw [hmiss]
  have hfirstc : (getEarnings envW 0 "San Francisco" "2025-11-08" "6:00 PM" "7:00 PM" 18 []).2.1
      = cacheEarnings [] 0 "San Francisco" "2025-11-08" 18
          ⟨getAllEstimates envW, improvedScraperMetadata⟩ := by
    unfold getEarnings
    rw [hmiss]
    dsimp only
    rw [if_neg (getAllEstimates_ne_nil envW)]
  have hlookup : getCachedEarnings
      (cacheEarnings [] 0 "San Francisco" "2025-11-08" 18
        ⟨getAllEstimates envW, improvedScraperMetadata⟩)
      1 "San Francisco" "2025-11-08" 18
      = some ⟨getAllEstimates envW, improvedScraperMetadata⟩ := by
    unfold getCachedEarnings cacheEarnings cacheLookup
    rw [if_pos rfl]
    dsimp only
    rw [if_pos httl]
  have hsecond : (getEarnings envW 1 "San Francisco" "2025-11-08" "6:00 PM" "7:00 PM" 18
      (getEarnings envW 0 "San Francisco" "2025-11-08" "6:00 PM" "7:00 PM" 18 []).2.1).1.metadata
      = some improvedScraperMetadata := by
    rw [hfirstc]
    unfold getEarnings
    rw [hlookup]
  intro h
  rw [h, hfirst] at hsecond
  exact Option.noConfusion hsecond

/-- C8 (amended): calling the endpoint a second time with the identical
(location, date, hour) key within the TTL issues no live provider calls
(the scraper-invocation count of the second call is 0, whatever readings
`env2` the scrapers would have produced), leaves the cache unchanged, and
serves the cached predictions — which equal the first call's predictions —
but the served body is the cached `predictions`/`metadata` object, not the
first call's `location`/`date`/`timeSlot`/`predictions` object, so the two
responses are not byte-identical. -/
theorem claim8_cache_hit_serves_cached_predictions
    (env env2 : Env) (now1 now2 : ℚ)
    (location date st1 et1 st2 et2 : String) (hour : ℕ) (cache : EarningsCache)
    (hmiss : getCachedEarnings cache now1 location date hour = none)
    (httl : now2 - now1 < CACHE_TTL_SECONDS) :
    (getEarnings env2 now2 location date st2 et2 hour
        (getEarnings env now1 location date st1 et1 hour cache).2.1).1.predictions
      = (getEarnings env now1 location date st1 et1 hour cache).1.predictions ∧
    (getEarnings env2 now2 location date st2 et2 hour
        (getEarnings env now1 location date st1 et1 hour cache).2.1).2.2 = 0 ∧
    (getEarnings env2 now2 location date st2 et2 hour
        (getEarnings env now1 location date st1 et1 hour cache).2.1).2.1
      = (getEarnings env now1 location date st1 et1 hour cache).2.1 ∧
    (getEarnings env2 now2 location date st2 et2 hour
        (getEarnings env now1 location date st1 et1 hour cache).2.1).1.metadata
      = some improvedScraperMetadata ∧
    (getEarnings env now1 location date st1 et1 hour cache).1.metadata = none := by
  have hfirst : getEarnings env now1 location date st1 et1 hour cache
      = (⟨some location, some date, some (st1 ++ " - " ++ et1),
          getAllEstimates env, none⟩,
         cacheEarnings cache now1 location date hour
           ⟨getAllEstimates env, improvedScraperMetadata⟩, 1) := by
    unfold getEarnings
    rw [hmiss]
    dsimp only
    rw [if_neg (getAllEstimates_ne_nil env)]
  have hlookup : getCachedEarnings
      (cacheEarnings cache now1 location date hour
        ⟨getAllEstimates env, improvedScraperMetadata⟩)
      now2 location date hour
      = some ⟨getAllEstimates env, improvedScraperMetadata⟩ := by
    unfold getCachedEarnings cacheEarnings cacheLookup
    rw [if_pos rfl]
    dsimp only
    rw [if_pos httl]
  have hsecond : getEarnings env2 now2 location date st2 et2 hour
      (cacheEarnings cache now1 location date hour
        ⟨getAllEstimates env, improvedScraperMetadata⟩)
      = (⟨none, none, none, getAllEstimates env, some improvedScraperMetadata⟩,
         cacheEarnings cache now1 location date hour
           ⟨getAllEstimates env, improvedScraperMetadata⟩, 0) := by
    unfold getEarnings
    rw [hlookup]
  rw [hfirst]
  dsimp only
  rw [hsecond]
  exact ⟨rfl, rfl, rfl, rfl, rfl⟩

theorem claim8_witness :
    getCachedEarnings [] 0 "San Francisco" "2025-11-08" 18 = none ∧
    (1 : ℚ) - 0 < CACHE_TTL_SECONDS ∧
    ((getEarnings envW 1 "San Francisco" "2025-11-08" "6:00 PM" "7:00 PM" 18
        (getEarnings envW 0 "San Francisco" "2025-11-08" "6:00 PM" "7:00 PM" 18 []).2.1).1.predictions
      = (getEarnings envW 0 "San Francisco" "2025-11-08" "6:00 PM" "7:00 PM" 18 []).1.predictions ∧
     (getEarnings envW 1 "San Francisco" "2025-11-08" "6:00 PM" "7:00 PM" 18
        (getEarnings envW 0 "San Francisco" "2025-11-08" "6:00 PM" "7:00 PM" 18 []).2.1).2.2 = 0) :=
  ⟨rfl, by norm_num [CACHE_TTL_SECONDS],
   (claim8_cache_hit_serves_cached_predictions envW envW 0 1
      "San Francisco" "2025-11-08" "6:00 PM" "7:00 PM" "6:00 PM" "7:00 PM" 18 []
      rfl (by norm_num [CACHE_TTL_SECONDS])).1,
   (claim8_cache_hit_serves_cached_predictions envW envW 0 1
      "San Francisco" "2025-11-08" "6:00 PM" "7:00 PM" "6:00 PM" "7:00 PM" 18 []
      rfl (by norm_num [CACHE_TTL_SECONDS])).2.1⟩

/-!
## Time-string parsing (`api_server.py`, `parse_time_to_hour`, lines 103-113)

`parse_time_to_hour` first tries `datetime.strptime(time_str, '%I:%M %p')`,
then falls back to `int(time_str.split(':')[0])`, then to the constant 9.
The two stdlib parsers are modelled from CPython's behaviour:
`_strptime` compiles `'%I:%M %p'` to the anchored, fully-consumed regex
`(1[0-2]|0[1-9]|[1-9]):([0-5]\d|\d)\s+(AM|PM)` (case-insensitive `%p`) and
converts with the 12 AM → 0 / h PM → h+12 rule, and `int()` accepts optional
surrounding whitespace, an optional sign and a nonempty digit string
(digit-grouping underscores are not modelled). -/

def digitVal (c : Char) : Option ℕ :=
  if 48 ≤ c.toNat ∧ c.toNat ≤ 57 then some (c.toNat - 48) else none

/-- Format `%I`: regex alternation `1[0-2]|0[1-9]|[1-9]`, in that order. -/
def parseHour12 : List Char → Option (ℕ × List Char)
| [] => none
| [c1] =>
    match digitVal c1 with
    | some d1 => if 1 ≤ d1 then some (d1, []) else none
    | none => none
| c1 :: c2 :: rest =>
    match digitVal c1, digitVal c2 with
    | some d1, some d2 =>
        if d1 = 1 ∧ d2 ≤ 2 then some (d1 * 10 + d2, rest)
        else if d1 = 0 ∧ 1 ≤ d2 then some (d1 * 10 + d2, rest)
        else if 1 ≤ d1 then some (d1, c2 :: rest)
        else none
    | some d1, none => if 1 ≤ d1 then some (d1, c2 :: rest) else none
    | none, _ => none

/-- Format `%M`: regex alternation `[0-5]\d|\d`, in that order. -/
def parseMinute : List Char → Option (ℕ × List Char)
| [] => none
| [c1] =>
    match digitVal c1 with
    | some d1 => some (d1, [])
    | none => none
| c1 :: c2 :: rest =>
    match digitVal c1, digitVal c2 with
    | some d1, some d2 =>
        if d1 ≤ 5 then some (d1 * 10 + d2, rest) else some (d1, c2 :: rest)
    | some d1, none => some (d1, c2 :: rest)
    | none, _ => none

def expectColon : List Char → Option (List Char)
| ':' :: rest => some rest
| _ => none

/-- Python regex `\s`. -/
def isPySpace (c : Char) : Bool :=
  c = ' ' || c = '\t' || c = '\n' || c = '\r' || c.toNat = 11 || c.toNat = 12

/-- A whitespace run in a strptime format matches `\s+`. -/
def skipSpaces1 : List Char → Option (List Char)
| [] => none
| c :: rest => if isPySpace c then some (rest.dropWhile isPySpace) else none

/-- Format `%p`: `AM|PM`, case-insensitively; `true` means PM. -/
def parseAmPm : List Char → Option (Bool × List Char)
| c1 :: c2 :: rest =>
    if (c1 = 'A' ∨ c1 = 'a') ∧ (c2 = 'M' ∨ c2 = 'm') then some (false, rest)
    else if (c1 = 'P' ∨ c1 = 'p') ∧ (c2 = 'M' ∨ c2 = 'm') then some (true, rest)
    else none
| _ => none

/-- CPython `_strptime`'s 12-hour to 24-hour conversion. -/
def hourFrom12 (h12 : ℕ) (isPM : Bool) : ℕ :=
  if isPM then (if h12 = 12 then 12 else h12 + 12)
  else (if h12 = 12 then 0 else h12)

/-- Model of `datetime.strptime(time_str, '%I:%M %p').hour`; `none` is a
`ValueError` (the full string must be consumed). -/
def parseTwelveHour (s : String) : Option ℕ :=
  match parseHour12 s.data with
  | none => none
  | some (h12, r1) =>
      match expectColon r1 with
      | none => none
      | some r2 =>
          match parseMinute r2 with
          | none => none
          | some (_, r3) =>
              match skipSpaces1 r3 with
              | none => none
              | some r4 =>
                  match parseAmPm r4 with
                  | none => none
                  | some (pm, r5) =>
                      if r5 = [] then some (hourFrom12 h12 pm) else none

/-- Python `time_str.split(':')[0]`. -/
def beforeColon (s : String) : List Char := s.data.takeWhile (fun c => c ≠ ':')

def digitsVal : List Char → ℕ → Option ℕ
| [], acc => some acc
| c :: rest, acc =>
    match digitVal c with
    | some d => digitsVal rest (acc * 10 + d)
    | none => none

/-- Python `int(str)`: optional surrounding whitespace, optional sign,
nonempty digits. -/
def pyInt (cs : List Char) : Option ℤ :=
  let t := ((cs.dropWhile isPySpace).reverse.dropWhile isPySpace).reverse
  match t with
  | '-' :: ds =>
      match ds with
      | [] => none
      | _ :: _ => (digitsVal ds 0).map (fun n => -(n : ℤ))
  | '+' :: ds =>
      match ds with
      | [] => none
      | _ :: _ => (digitsVal ds 0).map (fun n => (n : ℤ))
  | [] => none
  | ds => (digitsVal ds 0).map (fun n => (n : ℤ))

/-- Embedding of `parse_time_to_hour` (lines 103-113). -/
def parse_time_to_hour (s : String) : ℤ :=
  match parseTwelveHour s with
  | some h => (h : ℤ)
  | none =>
      match pyInt (beforeColon s) with
      | some n => n
      | none => 9

theorem digitVal_le_nine {c : Char} {d : ℕ} (h : digitVal c = some d) : d ≤ 9 := by
  unfold digitVal at h
  split_ifs at h with hc
  · injection h with h
    omega

theorem parseHour12_bounds {l : List Char} {h : ℕ} {r : List Char}
    (hp : parseHour12 l = some (h, r)) : 1 ≤ h ∧ h ≤ 12 := by
  cases l with
  | nil => simp [parseHour12] at hp
  | cons c1 l1 =>
    cases l1 with
    | nil =>
        simp only [parseHour12] at hp
        cases hd : digitVal c1 with
        | none => rw [hd] at hp; cases hp
        | some d1 =>
            rw [hd] at hp
            have hle := digitVal_le_nine hd
            dsimp only at hp
            split_ifs at hp with h1
            cases hp
            omega
    | cons c2 rest =>
        simp only [parseHour12] at hp
        cases hd1 : digitVal c1 with
        | none => rw [hd1] at hp; cases hp
        | some d1 =>
            have hle1 := digitVal_le_nine hd1
            cases hd2 : digitVal c2 with
            | none =>
                rw [hd1, hd2] at hp
                dsimp only at hp
                split_ifs at hp with h1
                cases hp
                omega
            | some d2 =>
                have hle2 := digitVal_le_nine hd2
                rw [hd1, hd2] at hp
                dsimp only at hp
                split_ifs at hp with h1 h2 h3 <;> cases hp <;> omega

theorem hourFrom12_le {h12 : ℕ} (pm : Bool) (h1 : 1 ≤ h12) (h2 : h12 ≤ 12) :
    hourFrom12 h12 pm ≤ 23 := by
  unfold hourFrom12
  cases pm <;> split_ifs <;> omega

theorem parseTwelveHour_le {s : String} {h : ℕ}
    (hp : parseTwelveHour s = some h) : h ≤ 23 := by
  unfold parseTwelveHour at hp
  cases h1 : parseHour12 s.data with
  | none => rw [h1] at hp; cases hp
  | some p1 =>
      obtain ⟨h12, r1⟩ := p1
      obtain ⟨hb1, hb2⟩ := parseHour12_bounds h1
      rw [h1] at hp
      dsimp only at hp
      cases h2 : expectColon r1 with
      | none => rw [h2] at hp; cases hp
      | some r2 =>
          rw [h2] at hp
          dsimp only at hp
          cases h3 : parseMinute r2 with
          | none => rw [h3] at hp; cases hp
          | some p3 =>
              obtain ⟨m, r3⟩ := p3
              rw [h3] at hp
              dsimp only at hp
              cases h4 : skipSpaces1 r3 with
              | none => rw [h4] at hp; cases hp
              | some r4 =>
                  rw [h4] at hp
                  dsimp only at hp
                  cases h5 : parseAmPm r4 with
                  | none => rw [h5] at hp; cases hp
                  | some p5 =>
                      obtain ⟨pm, r5⟩ := p5
                      rw [h5] at hp
                      dsimp only at hp
                      split_ifs at hp with h6
                      injection hp with hp
                      rw [← hp]
                      exact hourFrom12_le pm hb1 hb2


/-- C9 counterexample: `parse_time_to_hour("25:00")` returns 25, outside
[0, 23]: `strptime('%I:%M %p')` rejects the string, so the bare-integer
fallback `int("25")` is returned unvalidated. -/
theorem claim9_counterexample :
    parse_time_to_hour "25:00" = 25 ∧
    ¬ (0 ≤ parse_time_to_hour "25:00" ∧ parse_time_to_hour "25:00" ≤ 23) := by
  constructor
  · decide
  · decide

/-- C9 (amended): `parse_time_to_hour` returns a value in [0, 23] whenever
the primary 12-hour parse succeeds or both parses fail (default 9); when only
the bare-integer fallback applies, that integer is returned unvalidated and
can lie outside [0, 23].  And when the target-date string fails to parse,
`get_demand_multipliers` does not fall back to the current date: it uses
weekday 0 with the current month — i.e. it behaves exactly as a Monday of
the current month, so its `weekend_multiplier` is 1.0 whatever today's
weekday is. -/
theorem claim9_hour_range_and_date_fallback :
    (∀ s : String,
      (0 ≤ parse_time_to_hour s ∧ parse_time_to_hour s ≤ 23) ∨
      (parseTwelveHour s = none ∧
       pyInt (beforeColon s) = some (parse_time_to_hour s)))
    ∧ (∀ (svc : String) (hour : ℕ) (nm : ℕ) (w e b t : ℚ),
      getDemandMultipliers svc hour none nm w e b t
        = getDemandMultipliers svc hour (some ⟨0, nm⟩) nm w e b t)
    ∧ (∀ (svc : String) (hour : ℕ) (nm : ℕ) (w e b t : ℚ),
      (getDemandMultipliers svc hour none nm w e b t).weekend_multiplier = 1.0) := by
  refine ⟨fun s => ?_, fun svc hour nm w e b t => ?_, fun svc hour nm w e b t => ?_⟩
  · cases hp : parseTwelveHour s with
    | some h =>
        left
        have hle := parseTwelveHour_le hp
        simp only [parse_time_to_hour, hp]
        constructor
        · exact_mod_cast Int.ofNat_nonneg h
        · exact_mod_cast hle
    | none =>
        cases hq : pyInt (beforeColon s) with
        | some n =>
            right
            refine ⟨rfl, ?_⟩
            simp only [parse_time_to_hour, hp, hq]
        | none =>
            left
            simp only [parse_time_to_hour, hp, hq]
            norm_num
  · unfold getDemandMultipliers
    norm_num
  · unfold getDemandMultipliers
    dsimp only
    split_ifs <;> first | rfl | contradiction
